import Mathlib

/-!
Verification of the parameter-normalization and URL-construction layer of the
mention-python client (`mention/mention/base.py`).

Python dictionaries are embedded as association lists in insertion order
(every key in the source is assigned at most once per build).  A Python value
that can be either a string or `None` is embedded as `Option String`
(`none` = Python `None`).  Python truthiness on such values: `None` and the
empty string are falsy, every other string is truthy.
-/

/-- Truthiness of a Python string-or-None value. -/
def pyTruthy : Option String → Bool
  | none => false
  | some s => !(s == "")

/-- `x if x else ""` for a Python string-or-None value. -/
def orEmpty : Option String → String
  | none => ""
  | some s => s

/-- Digit run of a decimal numeral. -/
def digitsToNat (cs : List Char) : Option Nat :=
  if cs.isEmpty then none
  else if cs.all Char.isDigit then
    some (cs.foldl (fun acc c => acc * 10 + (c.toNat - 48)) 0)
  else none

/-- `int(s)` for a decimal string with an optional sign; `none` where Python
`int` raises. -/
def parseInt (s : String) : Option Int :=
  match s.data with
  | '-' :: rest => (digitsToNat rest).map (fun n => -(n : Int))
  | '+' :: rest => (digitsToNat rest).map (fun n => (n : Int))
  | l => (digitsToNat l).map (fun n => (n : Int))

/-- `int(s)` as a total function (defaults to 0 where Python `int` would
raise; all theorems below either fix a numeric literal or carry
`parseInt s = some L`). -/
def pyIntD (s : String) : Int :=
  (parseInt s).getD 0

/-- Keys of an association list (a Python dict's key view). -/
def keysOf {α : Type} (ps : List (String × α)) : List String :=
  ps.map Prod.fst

@[simp]
theorem pyTruthy_none : pyTruthy none = false := rfl

@[simp]
theorem pyTruthy_some (s : String) : pyTruthy (some s) = !(s == "") := rfl

@[simp]
theorem orEmpty_none : orEmpty none = "" := rfl

@[simp]
theorem orEmpty_some (s : String) : orEmpty (some s) = s := rfl

/-- Validation failures raised while building a request
(`mention/utils.py`, absent from the sources; error taxonomy from the spec). -/
inductive ValidationError where
  | malformedDate : String → ValidationError
  | invalidEnum : String → ValidationError
deriving DecidableEq, Repr

/-- Components of a parsed `yyyy-MM-dd HH:mm` date-time string. -/
structure DateParts where
  year : Nat
  month : Nat
  day : Nat
  hour : Nat
  minute : Nat
deriving DecidableEq, Repr

/-- Numeric value of two decimal digit characters. -/
def twoDigits (a b : Char) : Nat :=
  (a.toNat - 48) * 10 + (b.toNat - 48)

/-- Modelled from the spec: the date parser behind `utils.transform_date`
(`mention/utils.py` is not among the sources).  Accepts exactly the
`yyyy-MM-dd HH:mm` shape: four digits, dash, two digits, dash, two digits,
space, two digits, colon, two digits, with month, day, hour and minute in
range. -/
def parseDate (s : String) : Option DateParts :=
  match s.data with
  | [y1, y2, y3, y4, '-', m1, m2, '-', d1, d2, ' ', h1, h2, ':', n1, n2] =>
    if y1.isDigit && y2.isDigit && y3.isDigit && y4.isDigit &&
       m1.isDigit && m2.isDigit && d1.isDigit && d2.isDigit &&
       h1.isDigit && h2.isDigit && n1.isDigit && n2.isDigit then
      let y := twoDigits y1 y2 * 100 + twoDigits y3 y4
      let mo := twoDigits m1 m2
      let d := twoDigits d1 d2
      let h := twoDigits h1 h2
      let n := twoDigits n1 n2
      if 1 ≤ mo && mo ≤ 12 && 1 ≤ d && d ≤ 31 && h ≤ 23 && n ≤ 59 then
        some ⟨y, mo, d, h, n⟩
      else
        none
    else
      none
  | _ => none

/-- Left-pad a number below 100 to two digits. -/
def pad2 (n : Nat) : String :=
  if n < 10 then "0" ++ toString n else toString n

/-- Left-pad a number below 10000 to four digits. -/
def pad4 (n : Nat) : String :=
  if n < 10 then "000" ++ toString n
  else if n < 100 then "00" ++ toString n
  else if n < 1000 then "0" ++ toString n
  else toString n

/-- Modelled from the spec: the fully qualified, timezone-aware ISO-8601
rendering produced by `utils.transform_date` — seconds, a fractional
component and a fixed UTC offset appended to the parsed date and time. -/
def renderIso (p : DateParts) : String :=
  pad4 p.year ++ "-" ++ pad2 p.month ++ "-" ++ pad2 p.day ++ "T" ++
    pad2 p.hour ++ ":" ++ pad2 p.minute ++ ":00.000000+00:00"

/-- Modelled from the spec: `utils.transform_date` (absent from the sources).
A `yyyy-MM-dd HH:mm` string is reformatted into a timezone-aware ISO-8601
timestamp; anything else fails with `ValidationError`. -/
def transform_date (s : String) : Except ValidationError String :=
  match parseDate s with
  | some p => .ok (renderIso p)
  | none => .error (.malformedDate s)

/-- Modelled from the spec: `utils.transform_boolean` (absent from the
sources).  A boolean field is rendered as the literal token
`true` / `false`. -/
def transform_boolean (b : Bool) : String :=
  if b then "true" else "false"

/-- Modelled from the spec: `utils.transform_tone` (absent from the
sources).  A tone outside the vocabulary {negative, neutral, positive}
fails with `ValidationError`; an in-vocabulary tone passes through
unchanged. -/
def transform_tone (t : String) : Except ValidationError String :=
  if t = "negative" ∨ t = "neutral" ∨ t = "positive" then
    .ok t
  else
    .error (.invalidEnum t)

/-- Lift `transform_date` over an optional field, as done in
`FetchAllMentionsAPI.__init__` (`if x is not None: ... transform_date(x)`). -/
def transformOptDate : Option String → Except ValidationError (Option String)
  | none => .ok none
  | some s => (transform_date s).map some

/-- Lift `transform_tone` over an optional field. -/
def transformOptTone : Option String → Except ValidationError (Option String)
  | none => .ok none
  | some s => (transform_tone s).map some

/-- The base url shared by every operation (`Mention._base_url`). -/
def baseUrl : String := "https://api.mention.net/api"

/-- Path-substitution keys excluded from the query-fragment loop
(`without_keys(self.params, keys)` in the source). -/
def pathKeys : List String := ["access_token", "account_id", "alert_id"]

/-- A parameter value rendered into the url: Python `None` formats as the
text `None`, a string formats as itself. -/
def renderVal : Option String → String
  | some s => s
  | none => "None"

/-- The (key, value) pairs that survive into the query fragment: non-path
keys whose value is not the empty string (`if value != ''` in the source's
url loop). -/
def queryPairs (ps : List (String × Option String)) : List (String × Option String) :=
  ps.filter (fun kv => !(pathKeys.contains kv.1) && !(kv.2 == some ""))

/-- The `&key=value` query fragment appended after `?` by the source's url
builders. -/
def renderQuery (ps : List (String × Option String)) : String :=
  (queryPairs ps).foldl (fun acc kv => acc ++ "&" ++ kv.1 ++ "=" ++ renderVal kv.2) ""

/-- State of a constructed `FetchAllMentionsAPI` object: every field after
`__init__` has run its transforms. -/
structure FetchAllMentionsAPI where
  access_token : String
  account_id : String
  alert_id : String
  since_id : Option String
  limit : String
  before_date : Option String
  not_before_date : Option String
  source : Option String
  unread : Option String
  favorite : Option String
  folder : Option String
  tone : Option String
  countries : Option String
  include_children : Option String
  sort : Option String
  languages : Option String
  timezone : Option String
  q : Option String
  cursor : Option String
deriving DecidableEq, Repr

/-- Caller-supplied arguments of `FetchAllMentionsAPI.__init__`, with the
source's defaults. -/
structure FetchAllMentionsArgs where
  access_token : String
  account_id : String
  alert_id : String
  since_id : Option String := none
  limit : String := "20"
  before_date : Option String := none
  not_before_date : Option String := none
  source : Option String := none
  unread : Option Bool := none
  favorite : Option Bool := none
  folder : Option String := none
  tone : Option String := none
  countries : Option String := none
  include_children : Option Bool := none
  sort : Option String := none
  languages : Option String := none
  timezone : Option String := none
  q : Option String := none
  cursor : Option String := none
deriving DecidableEq, Repr

/-- `FetchAllMentionsAPI.__init__`: runs the date, boolean and tone
transforms in source order (before_date, not_before_date, unread, favorite,
tone, include_children); a transform failure aborts construction. -/
def mkFetchAllMentions (a : FetchAllMentionsArgs) : Except ValidationError FetchAllMentionsAPI :=
  match transformOptDate a.before_date with
  | .error e => .error e
  | .ok bd =>
    match transformOptDate a.not_before_date with
    | .error e => .error e
    | .ok nbd =>
      match transformOptTone a.tone with
      | .error e => .error e
      | .ok tn =>
        .ok { access_token := a.access_token
              account_id := a.account_id
              alert_id := a.alert_id
              since_id := a.since_id
              limit := a.limit
              before_date := bd
              not_before_date := nbd
              source := a.source
              unread := a.unread.map transform_boolean
              favorite := a.favorite.map transform_boolean
              folder := a.folder
              tone := tn
              countries := a.countries
              include_children := a.include_children.map transform_boolean
              sort := a.sort
              languages := a.languages
              timezone := a.timezone
              q := a.q
              cursor := a.cursor }

/-- `FetchAllMentionsAPI.params` before the delete-empty-keys pass, entry by
entry in the source's insertion order.  Line 725 of the source conditions the
`not_before_date` value on `self.before_date` (so when `before_date` is
truthy the raw `self.not_before_date` — possibly Python `None` — is stored). -/
def FetchAllMentionsAPI.rawParams (m : FetchAllMentionsAPI) : List (String × Option String) :=
  [("access_token", some m.access_token),
   ("account_id", some m.account_id),
   ("alert_id", some m.alert_id)]
  ++ (if pyTruthy m.since_id then
        [("since_id", some (orEmpty m.since_id))]
      else
        [("before_date", some (if pyTruthy m.before_date then orEmpty m.before_date else "")),
         ("not_before_date", if pyTruthy m.before_date then m.not_before_date else some ""),
         ("cursor", some (if pyTruthy m.cursor then orEmpty m.cursor else ""))])
  ++ (if pyTruthy m.unread then
        [("unread", some (orEmpty m.unread))]
      else
        (if pyTruthy m.favorite && (m.folder == some "inbox" || m.folder == some "archive") then
           [("favorite", some (orEmpty m.favorite)),
            ("folder", some (orEmpty m.folder))]
         else
           [("folder", some (if pyTruthy m.folder then orEmpty m.folder else ""))])
        ++ [("q", some (if pyTruthy m.q then orEmpty m.q else "")),
            ("tone", some (if pyTruthy m.tone then orEmpty m.tone else ""))])
  ++ [("limit", some (if pyIntD m.limit > 1000 then "1000"
                      else if pyIntD m.limit < 1 then "" else m.limit))]
  ++ [("source", some (if pyTruthy m.source then orEmpty m.source else "")),
      ("countries", some (if pyTruthy m.countries then orEmpty m.countries else "")),
      ("include_children", some (if pyTruthy m.include_children then orEmpty m.include_children else "")),
      ("sort", some (if pyTruthy m.sort then orEmpty m.sort else "")),
      ("languages", some (if pyTruthy m.languages then orEmpty m.languages else "")),
      ("timezone", some (if pyTruthy m.timezone then orEmpty m.timezone else ""))]

/-- `FetchAllMentionsAPI.params`: the raw entries followed by the source's
"Deletes parameter if it does not have a value" pass (`if value == '': del`;
a Python `None` value is not equal to `''` and survives). -/
def FetchAllMentionsAPI.params (m : FetchAllMentionsAPI) : List (String × Option String) :=
  m.rawParams.filter (fun kv => !(kv.2 == some ""))

/-- `FetchAllMentionsAPI.url`: the path template with `account_id` and
`alert_id` substituted, followed by one `&key=value` per surviving non-path
parameter. -/
def FetchAllMentionsAPI.url (m : FetchAllMentionsAPI) : String :=
  baseUrl ++ "/accounts/" ++ m.account_id ++ "/alerts/" ++ m.alert_id ++ "/mentions?"
    ++ renderQuery m.params

/-- An HTTP response as seen by the `query` methods: status code and the
parsed body handed back by the transport. -/
structure HttpResponse where
  status : Nat
  body : String
deriving DecidableEq, Repr

/-- A non-2xx HTTP response surfaced by the transport
(`response.raise_for_status()` raises for 4xx/5xx statuses). -/
structure TransportError where
  status : Nat
deriving DecidableEq, Repr

/-- `response.raise_for_status()`. -/
def raiseForStatus (r : HttpResponse) : Except TransportError Unit :=
  if 400 ≤ r.status then .error ⟨r.status⟩ else .ok ()

/-- `FetchAllMentionsAPI.query`: issues one GET for `self.url`, wraps
`raise_for_status` in `try ... except HTTPError: pass`, and returns the
parsed body regardless of the outcome. -/
def FetchAllMentionsAPI.query (m : FetchAllMentionsAPI) (transport : String → HttpResponse) : String :=
  let response := transport m.url
  match raiseForStatus response with
  | .ok _ => response.body
  | .error _ => response.body

/-- State of a constructed `AppDataAPI` object. -/
structure AppDataAPI where
  access_token : String
deriving DecidableEq, Repr

/-- `AppDataAPI.url`. -/
def AppDataAPI.url (_a : AppDataAPI) : String :=
  baseUrl ++ "/app/data"

/-- `AppDataAPI.query`: same swallow-the-HTTPError shape as every other
`query` in the source. -/
def AppDataAPI.query (a : AppDataAPI) (transport : String → HttpResponse) : String :=
  let response := transport a.url
  match raiseForStatus response with
  | .ok _ => response.body
  | .error _ => response.body

/-- State of a constructed `FetchMentionChildrenAPI` object. -/
structure FetchMentionChildrenAPI where
  access_token : String
  account_id : String
  alert_id : String
  mention_id : String
  limit : Option String
  before_date : Option String
deriving DecidableEq, Repr

/-- `FetchMentionChildrenAPI.__init__`: transforms `before_date` when
supplied; `limit` is stored untouched. -/
def mkFetchMentionChildren (access_token account_id alert_id mention_id : String)
    (limit : Option String) (before_date : Option String) :
    Except ValidationError FetchMentionChildrenAPI :=
  match transformOptDate before_date with
  | .error e => .error e
  | .ok bd =>
    .ok { access_token := access_token
          account_id := account_id
          alert_id := alert_id
          mention_id := mention_id
          limit := limit
          before_date := bd }

/-- `FetchMentionChildrenAPI.params`: note that unlike the mentions-list
build, this params property has no delete-empty-keys pass, so empty-string
entries remain in the dict. -/
def FetchMentionChildrenAPI.params (c : FetchMentionChildrenAPI) : List (String × Option String) :=
  [("access_token", some c.access_token),
   ("account_id", some c.account_id),
   ("alert_id", some c.alert_id),
   ("mention_id", some c.mention_id),
   ("before_date", some (if pyTruthy c.before_date then orEmpty c.before_date else ""))]
  ++ (if pyTruthy c.limit then
        [("limit", some (if pyIntD (orEmpty c.limit) > 1000 then "1000"
                         else if pyIntD (orEmpty c.limit) < 1 then ""
                         else orEmpty c.limit))]
      else [])

/-- `FetchMentionChildrenAPI.url`: path with all four identifiers
substituted; the query loop excludes only access_token/account_id/alert_id,
so `mention_id` also reappears as a query parameter. -/
def FetchMentionChildrenAPI.url (c : FetchMentionChildrenAPI) : String :=
  baseUrl ++ "/accounts/" ++ c.account_id ++ "/alerts/" ++ c.alert_id ++ "/mentions/"
    ++ c.mention_id ++ "/children?" ++ renderQuery c.params

/-- A value stored in the JSON body dict of `CreateAnAlertAPI.data`: a
string, a list of strings, or the query dictionary. -/
inductive BodyVal where
  | str : String → BodyVal
  | strs : List String → BodyVal
  | dict : List (String × String) → BodyVal
deriving DecidableEq, Repr

/-- `xs if xs else ""` for a Python list-or-None value (an empty list is
falsy and collapses to the empty string). -/
def listVal : Option (List String) → BodyVal
  | none => .str ""
  | some l => if l.isEmpty then .str "" else .strs l

/-- State of a constructed `CreateAnAlertAPI` object. -/
structure CreateAnAlertAPI where
  access_token : String
  account_id : String
  name : String
  queryd : List (String × String)
  languages : List String
  countries : Option (List String)
  sources : Option (List String)
  blocked_sites : Option (List String)
  noise_detection : Option String
  reviews_pages : Option (List String)
deriving DecidableEq, Repr

/-- `CreateAnAlertAPI.__init__`: only `noise_detection` is transformed
(boolean token); everything else is stored untouched. -/
def mkCreateAnAlert (access_token account_id name : String)
    (queryd : List (String × String)) (languages : List String)
    (countries sources blocked_sites : Option (List String))
    (noise_detection : Option Bool) (reviews_pages : Option (List String)) :
    CreateAnAlertAPI :=
  { access_token := access_token
    account_id := account_id
    name := name
    queryd := queryd
    languages := languages
    countries := countries
    sources := sources
    blocked_sites := blocked_sites
    noise_detection := noise_detection.map transform_boolean
    reviews_pages := reviews_pages }

/-- `CreateAnAlertAPI.data`: the JSON body dict before `json.dumps`, with
the source's delete-empty-string-values pass applied (an empty list value is
not equal to `''` in Python and survives). -/
def CreateAnAlertAPI.data (c : CreateAnAlertAPI) : List (String × BodyVal) :=
  ([("name", .str c.name),
    ("query", .dict c.queryd),
    ("languages", .strs c.languages),
    ("countries", listVal c.countries),
    ("sources", listVal c.sources),
    ("blocked_sites", listVal c.blocked_sites),
    ("noise_detection", .str (if pyTruthy c.noise_detection then orEmpty c.noise_detection else "")),
    ("reviews_pages", listVal c.reviews_pages)]).filter
      (fun kv => !(kv.2 == BodyVal.str ""))

/-- Inversion of a successful `FetchAllMentionsAPI` build: the constructed
state's fields in terms of the arguments and their transforms. -/
theorem mkFetchAllMentions_ok (a : FetchAllMentionsArgs) (m : FetchAllMentionsAPI)
    (h : mkFetchAllMentions a = .ok m) :
    m.access_token = a.access_token ∧ m.account_id = a.account_id ∧
    m.alert_id = a.alert_id ∧ m.since_id = a.since_id ∧ m.limit = a.limit ∧
    transformOptDate a.before_date = .ok m.before_date ∧
    transformOptDate a.not_before_date = .ok m.not_before_date ∧
    m.source = a.source ∧ m.unread = a.unread.map transform_boolean ∧
    m.favorite = a.favorite.map transform_boolean ∧ m.folder = a.folder ∧
    transformOptTone a.tone = .ok m.tone ∧ m.countries = a.countries ∧
    m.include_children = a.include_children.map transform_boolean ∧
    m.sort = a.sort ∧ m.languages = a.languages ∧ m.timezone = a.timezone ∧
    m.q = a.q ∧ m.cursor = a.cursor := by
  unfold mkFetchAllMentions at h
  split at h
  · exact absurd h (by simp)
  · split at h
    · exact absurd h (by simp)
    · split at h
      · exact absurd h (by simp)
      · rename_i bd hbd nbd hnbd tn htn
        cases h
        simp_all

/-- Keys surviving into the query fragment are keys of the parameter set. -/
theorem keysOf_queryPairs_subset (ps : List (String × Option String)) (k : String)
    (h : k ∈ keysOf (queryPairs ps)) : k ∈ keysOf ps := by
  simp only [keysOf, queryPairs, List.mem_map, List.mem_filter] at h ⊢
  obtain ⟨kv, ⟨hmem, _⟩, hk⟩ := h
  exact ⟨kv, hmem, hk⟩

/-- Arguments of the spec's end-to-end example build. -/
def endToEndArgs : FetchAllMentionsArgs :=
  { access_token := "T", account_id := "A", alert_id := "B", limit := "5000",
    favorite := some true, folder := some "inbox" }

/-- The url the end-to-end example build renders. -/
def endToEndUrl : String :=
  "https://api.mention.net/api/accounts/A/alerts/B/mentions?&favorite=true&folder=inbox&limit=1000"

/-- Arguments supplying only a (valid) `not_before_date` filter. -/
def notBeforeOnlyArgs : FetchAllMentionsArgs :=
  { access_token := "t", account_id := "a", alert_id := "b",
    not_before_date := some "2018-10-04 12:00" }

/-- A mention-list build with every optional argument left at its default. -/
def defaultMentionArgs : FetchAllMentionsArgs :=
  { access_token := "t", account_id := "a", alert_id := "b" }

/-- The state the all-defaults mention-list build constructs. -/
def defaultMentionState : FetchAllMentionsAPI :=
  { access_token := "t", account_id := "a", alert_id := "b", since_id := none,
    limit := "20", before_date := none, not_before_date := none, source := none,
    unread := none, favorite := none, folder := none, tone := none,
    countries := none, include_children := none, sort := none, languages := none,
    timezone := none, q := none, cursor := none }

/-- A non-2xx response handed back by the transport. -/
def errorResponse : HttpResponse := ⟨404, "error-body"⟩

set_option maxRecDepth 4000

/-- C2: when a non-empty `since_id` filter is supplied, the rendered
parameter set and query fragment contain the `since_id` field and none of
`before_date`, `not_before_date` or `cursor`, whatever else was supplied. -/
theorem since_id_excludes_date_filters (a : FetchAllMentionsArgs)
    (m : FetchAllMentionsAPI) (sid : String)
    (h : mkFetchAllMentions a = .ok m) (hs : a.since_id = some sid) (hne : sid ≠ "") :
    ("since_id", some sid) ∈ m.params ∧
    ("since_id", some sid) ∈ queryPairs m.params ∧
    "before_date" ∉ keysOf m.params ∧
    "not_before_date" ∉ keysOf m.params ∧
    "cursor" ∉ keysOf m.params ∧
    "before_date" ∉ keysOf (queryPairs m.params) ∧
    "not_before_date" ∉ keysOf (queryPairs m.params) ∧
    "cursor" ∉ keysOf (queryPairs m.params) := by
  have hfields := mkFetchAllMentions_ok a m h
  have hm : m.since_id = some sid := by rw [hfields.2.2.2.1, hs]
  have hmem : ("since_id", some sid) ∈ m.params := by
    by_cases hu : pyTruthy m.unread = true <;>
      by_cases hf : (pyTruthy m.favorite &&
          (m.folder == some "inbox" || m.folder == some "archive")) = true <;>
      simp [FetchAllMentionsAPI.params, FetchAllMentionsAPI.rawParams, hm, hu, hf, hne]
  have hbd : "before_date" ∉ keysOf m.params := by
    by_cases hu : pyTruthy m.unread = true <;>
      by_cases hf : (pyTruthy m.favorite &&
          (m.folder == some "inbox" || m.folder == some "archive")) = true <;>
      simp [FetchAllMentionsAPI.params, FetchAllMentionsAPI.rawParams, keysOf, hm, hu, hf, hne]
  have hnbd : "not_before_date" ∉ keysOf m.params := by
    by_cases hu : pyTruthy m.unread = true <;>
      by_cases hf : (pyTruthy m.favorite &&
          (m.folder == some "inbox" || m.folder == some "archive")) = true <;>
      simp [FetchAllMentionsAPI.params, FetchAllMentionsAPI.rawParams, keysOf, hm, hu, hf, hne]
  have hcur : "cursor" ∉ keysOf m.params := by
    by_cases hu : pyTruthy m.unread = true <;>
      by_cases hf : (pyTruthy m.favorite &&
          (m.folder == some "inbox" || m.folder == some "archive")) = true <;>
      simp [FetchAllMentionsAPI.params, FetchAllMentionsAPI.rawParams, keysOf, hm, hu, hf, hne]
  refine ⟨hmem, ?_, hbd, hnbd, hcur,
    fun hc => hbd (keysOf_queryPairs_subset _ _ hc),
    fun hc => hnbd (keysOf_queryPairs_subset _ _ hc),
    fun hc => hcur (keysOf_queryPairs_subset _ _ hc)⟩
  simp only [queryPairs, List.mem_filter]
  exact ⟨hmem, by simp [pathKeys, hne]⟩

/-- C2 witness: the theorem applied to a concrete build that supplies
`since_id` together with a `before_date`. -/
theorem since_id_excludes_date_filters_witness :
    ("since_id", some "99") ∈ FetchAllMentionsAPI.params
      { access_token := "t", account_id := "a", alert_id := "b", since_id := some "99",
        limit := "20", before_date := some "2018-11-25T12:00:00.000000+00:00",
        not_before_date := none, source := none, unread := none, favorite := none,
        folder := none, tone := none, countries := none, include_children := none,
        sort := none, languages := none, timezone := none, q := none,
        cursor := some "c1" } :=
  (since_id_excludes_date_filters
    { access_token := "t", account_id := "a", alert_id := "b", since_id := some "99",
      before_date := some "2018-11-25 12:00", cursor := some "c1" }
    { access_token := "t", account_id := "a", alert_id := "b", since_id := some "99",
      limit := "20", before_date := some "2018-11-25T12:00:00.000000+00:00",
      not_before_date := none, source := none, unread := none, favorite := none,
      folder := none, tone := none, countries := none, include_children := none,
      sort := none, languages := none, timezone := none, q := none,
      cursor := some "c1" }
    "99" (by rfl) rfl (by decide)).1

/-- C4: the code drops a validly supplied `not_before_date` whenever
`before_date` is absent — line 725 of the source conditions the
`not_before_date` value on `self.before_date` — so the field the claim
requires in the parameter set and query string is missing. -/
theorem not_before_date_dropped_when_before_absent :
    (mkFetchAllMentions notBeforeOnlyArgs).toOption.map
        (fun m => (m.not_before_date,
                   decide ("not_before_date" ∈ keysOf m.params),
                   decide (("not_before_date").data <:+: m.url.data))) =
      some (some "2018-10-04T12:00:00.000000+00:00", false, false) := by
  decide

/-- C6: the end-to-end example build renders the expected path and query:
limit clamped to 1000, favorite and folder present, stable order, no
`before_date` or `cursor` key. -/
theorem mention_list_end_to_end :
    (mkFetchAllMentions endToEndArgs).toOption.map FetchAllMentionsAPI.url =
      some endToEndUrl ∧
    (mkFetchAllMentions endToEndArgs).toOption.map (fun m => queryPairs m.params) =
      some [("favorite", some "true"), ("folder", some "inbox"), ("limit", some "1000")] ∧
    ("limit=1000").data <:+: endToEndUrl.data ∧
    ("favorite=true").data <:+: endToEndUrl.data ∧
    ("folder=inbox").data <:+: endToEndUrl.data ∧
    ("https://api.mention.net/api/accounts/A/alerts/B/mentions?").data <+: endToEndUrl.data ∧
    ¬ ("before_date").data <:+: endToEndUrl.data ∧
    ¬ ("cursor").data <:+: endToEndUrl.data := by
  decide

/-- C8: the source's `query` wraps `raise_for_status` in
`try ... except HTTPError: pass`: for a 404 transport response the error is
swallowed and the error body is returned as if it were a successful result,
contradicting the propagate-a-TransportError contract. -/
theorem query_swallows_http_error :
    raiseForStatus errorResponse = .error ⟨404⟩ ∧
    AppDataAPI.query ⟨"tok"⟩ (fun _ => errorResponse) = "error-body" ∧
    (mkFetchAllMentions defaultMentionArgs).toOption.map
        (fun m => m.query (fun _ => errorResponse)) = some "error-body" := by
  exact ⟨rfl, rfl, by decide⟩

/-- C9: a mention-list build whose caller leaves `limit` at its default of
`20` always renders `limit=20` in the parameter set and query. -/
theorem default_limit_rendered (a : FetchAllMentionsArgs) (m : FetchAllMentionsAPI)
    (h : mkFetchAllMentions a = .ok m) (hl : a.limit = "20") :
    m.limit = "20" ∧ ("limit", some "20") ∈ m.params ∧
    ("limit", some "20") ∈ queryPairs m.params := by
  have hfields := mkFetchAllMentions_ok a m h
  have hm : m.limit = "20" := by rw [hfields.2.2.2.2.1, hl]
  have h20 : pyIntD "20" = 20 := by decide
  have hmain : ("limit", some "20") ∈ m.params := by
    simp only [FetchAllMentionsAPI.params, FetchAllMentionsAPI.rawParams, hm, h20,
      List.mem_filter, List.mem_append, List.mem_cons]
    norm_num
    decide
  refine ⟨hm, hmain, ?_⟩
  simp only [queryPairs, List.mem_filter]
  exact ⟨hmain, by decide⟩

/-- C9 witness: the all-defaults build. -/
theorem default_limit_rendered_witness :
    ("limit", some "20") ∈ FetchAllMentionsAPI.params defaultMentionState :=
  (default_limit_rendered defaultMentionArgs defaultMentionState (by rfl) rfl).2.1

/-- C3: in a mention-list build with no unread filter, a supplied favorite
filter is rendered together with folder only when folder is inbox or
archive; for any other supplied folder (or none), favorite is absent from
the parameter set and the supplied folder is rendered alone. -/
theorem favorite_folder_exclusivity (a : FetchAllMentionsArgs) (m : FetchAllMentionsAPI)
    (b : Bool) (f : String)
    (h : mkFetchAllMentions a = .ok m) (hu : a.unread = none) :
    (a.favorite = some b → a.folder = some f → f = "inbox" ∨ f = "archive" →
      ("favorite", some (transform_boolean b)) ∈ m.params ∧
      ("folder", some f) ∈ m.params) ∧
    (¬ (a.favorite.isSome ∧ (a.folder = some "inbox" ∨ a.folder = some "archive")) →
      "favorite" ∉ keysOf m.params) ∧
    (a.folder = some f → f ≠ "" →
      ¬ (a.favorite.isSome ∧ (f = "inbox" ∨ f = "archive")) →
      ("folder", some f) ∈ m.params) := by
  have hff := mkFetchAllMentions_ok a m h
  have h_un := hff.2.2.2.2.2.2.2.2.1
  have h_fav := hff.2.2.2.2.2.2.2.2.2.1
  have h_fol := hff.2.2.2.2.2.2.2.2.2.2.1
  have hmu : m.unread = none := by rw [h_un, hu]; rfl
  refine ⟨fun hfb hfo hin => ?_, fun hncond => ?_, fun hfo hfne hncond => ?_⟩
  · have hmf : m.favorite = some (transform_boolean b) := by rw [h_fav, hfb]; rfl
    have hmo : m.folder = some f := by rw [h_fol, hfo]
    constructor <;>
      (rcases hin with rfl | rfl <;> cases b <;>
        by_cases hsi : pyTruthy m.since_id = true <;>
        simp [FetchAllMentionsAPI.params, FetchAllMentionsAPI.rawParams, hsi, hmu, hmf, hmo,
          transform_boolean])
  · have hcond : (pyTruthy m.favorite &&
        (m.folder == some "inbox" || m.folder == some "archive")) = false := by
      rcases ha : a.favorite with _ | fb
      · simp [h_fav, ha]
      · have hnor : ¬ (a.folder = some "inbox" ∨ a.folder = some "archive") := by
          intro hor
          exact hncond ⟨by simp [ha], hor⟩
        push_neg at hnor
        simp [h_fol, hnor.1, hnor.2]
    by_cases hsi : pyTruthy m.since_id = true <;>
      simp [FetchAllMentionsAPI.params, FetchAllMentionsAPI.rawParams, keysOf, hsi, hmu, hcond]
  · have hmo : m.folder = some f := by rw [h_fol, hfo]
    have hcond : (pyTruthy m.favorite &&
        (m.folder == some "inbox" || m.folder == some "archive")) = false := by
      rcases ha : a.favorite with _ | fb
      · simp [h_fav, ha]
      · have hnor : ¬ (f = "inbox" ∨ f = "archive") := by
          intro hor
          exact hncond ⟨by simp [ha], hor⟩
        push_neg at hnor
        simp [hmo, hnor.1, hnor.2]
    by_cases hsi : pyTruthy m.since_id = true <;>
      simp [FetchAllMentionsAPI.params, FetchAllMentionsAPI.rawParams, hsi, hmu, hcond, hmo,
        hfne] <;>
      (try split <;> simp)

/-- C3 witness: favorite together with folder inbox on a concrete build. -/
theorem favorite_folder_exclusivity_witness :
    ("favorite", some "true") ∈ FetchAllMentionsAPI.params
      { access_token := "T", account_id := "A", alert_id := "B", since_id := none,
        limit := "5000", before_date := none, not_before_date := none, source := none,
        unread := none, favorite := some "true", folder := some "inbox", tone := none,
        countries := none, include_children := none, sort := none, languages := none,
        timezone := none, q := none, cursor := none } :=
  ((favorite_folder_exclusivity endToEndArgs
    { access_token := "T", account_id := "A", alert_id := "B", since_id := none,
      limit := "5000", before_date := none, not_before_date := none, source := none,
      unread := none, favorite := some "true", folder := some "inbox", tone := none,
      countries := none, include_children := none, sort := none, languages := none,
      timezone := none, q := none, cursor := none }
    true "inbox" (by rfl) rfl).1 rfl rfl (Or.inl rfl)).1

/-- C10: a boolean supplied as False is normalized to the token `false` and
counts as present: `unread=False` renders `unread=false` in the parameter
set and query and suppresses folder, q and tone exactly as `unread=True`
does. -/
theorem unread_false_counts_present (a : FetchAllMentionsArgs) (m : FetchAllMentionsAPI)
    (b : Bool) (h : mkFetchAllMentions a = .ok m) (hu : a.unread = some b) :
    m.unread = some (transform_boolean b) ∧
    ("unread", some (transform_boolean b)) ∈ m.params ∧
    ("unread", some (transform_boolean b)) ∈ queryPairs m.params ∧
    "folder" ∉ keysOf m.params ∧
    "q" ∉ keysOf m.params ∧
    "tone" ∉ keysOf m.params ∧
    transform_boolean false = "false" := by
  have hff := mkFetchAllMentions_ok a m h
  have h_un := hff.2.2.2.2.2.2.2.2.1
  have hmu : m.unread = some (transform_boolean b) := by rw [h_un, hu]; rfl
  have htb : transform_boolean b ≠ "" := by cases b <;> simp [transform_boolean]
  have hmem : ("unread", some (transform_boolean b)) ∈ m.params := by
    by_cases hsi : pyTruthy m.since_id = true <;>
      simp [FetchAllMentionsAPI.params, FetchAllMentionsAPI.rawParams, hsi, hmu, htb]
  refine ⟨hmu, hmem,
    List.mem_filter.mpr ⟨hmem, by simp [queryPairs, pathKeys, htb]⟩, ?_, ?_, ?_, rfl⟩ <;>
    by_cases hsi : pyTruthy m.since_id = true <;>
      simp [FetchAllMentionsAPI.params, FetchAllMentionsAPI.rawParams, keysOf, hsi, hmu, htb]

/-- C10 witness: a concrete build with `unread=False`. -/
theorem unread_false_counts_present_witness :
    ("unread", some "false") ∈ FetchAllMentionsAPI.params
      { access_token := "t", account_id := "a", alert_id := "b", since_id := none,
        limit := "20", before_date := none, not_before_date := none, source := none,
        unread := some "false", favorite := none, folder := some "inbox", tone := none,
        countries := none, include_children := none, sort := none, languages := none,
        timezone := none, q := none, cursor := none } :=
  (unread_false_counts_present
    { access_token := "t", account_id := "a", alert_id := "b",
      unread := some false, folder := some "inbox" }
    { access_token := "t", account_id := "a", alert_id := "b", since_id := none,
      limit := "20", before_date := none, not_before_date := none, source := none,
      unread := some "false", favorite := none, folder := some "inbox", tone := none,
      countries := none, include_children := none, sort := none, languages := none,
      timezone := none, q := none, cursor := none }
    false (by rfl) rfl).2.1

/-- C1 counterexample: a mention-children build supplied with `limit=0`
keeps a `limit` key (with empty-string value) in its parameter set — this
params property has no delete-empty-keys pass — where the claim requires
the limit field to be absent. -/
theorem children_low_limit_key_present :
    (mkFetchMentionChildren "t" "a" "b" "m" (some "0") none).toOption.map
        (fun c => (decide (("limit", some "") ∈ c.params),
                   decide ("limit" ∈ keysOf c.params))) =
      some (true, true) := by
  decide

/-- C1 (amended): for every numeric limit L, the mention-list build renders
`limit="1000"` when L > 1000, omits the limit key when L < 1, and renders L
unchanged otherwise; the mention-children build clamps the same way for
L > 1000 and passes mid-range values through, but for L < 1 it keeps a
`limit` key with empty-string value in its parameter set (the key is still
omitted from the rendered query). -/
theorem limit_clamp :
    (∀ (m : FetchAllMentionsAPI) (L : Int), parseInt m.limit = some L → m.limit ≠ "" →
      (1000 < L → ("limit", some "1000") ∈ m.params) ∧
      (L < 1 → "limit" ∉ keysOf m.params) ∧
      (1 ≤ L → L ≤ 1000 → ("limit", some m.limit) ∈ m.params)) ∧
    (∀ (c : FetchMentionChildrenAPI) (s : String) (L : Int),
      c.limit = some s → parseInt s = some L → s ≠ "" →
      (1000 < L → ("limit", some "1000") ∈ c.params) ∧
      (L < 1 → ("limit", some "") ∈ c.params ∧ "limit" ∉ keysOf (queryPairs c.params)) ∧
      (1 ≤ L → L ≤ 1000 → ("limit", some s) ∈ c.params)) := by
  constructor
  · intro m L hL hne
    have hpy : pyIntD m.limit = L := by simp [pyIntD, hL]
    refine ⟨fun hgt => ?_, fun hlt => ?_, fun h1 h2 => ?_⟩
    · by_cases hsi : pyTruthy m.since_id = true <;>
        by_cases hu : pyTruthy m.unread = true <;>
        by_cases hf : (pyTruthy m.favorite &&
            (m.folder == some "inbox" || m.folder == some "archive")) = true <;>
        simp [FetchAllMentionsAPI.params, FetchAllMentionsAPI.rawParams, hsi, hu, hf,
          hpy, hgt]
    · have hngt : ¬ (1000 : Int) < L := by omega
      by_cases hsi : pyTruthy m.since_id = true <;>
        by_cases hu : pyTruthy m.unread = true <;>
        by_cases hf : (pyTruthy m.favorite &&
            (m.folder == some "inbox" || m.folder == some "archive")) = true <;>
        simp [FetchAllMentionsAPI.params, FetchAllMentionsAPI.rawParams, keysOf, hsi, hu, hf,
          hpy, hngt, hlt]
    · have hngt : ¬ (1000 : Int) < L := by omega
      have hnlt : ¬ L < 1 := by omega
      by_cases hsi : pyTruthy m.since_id = true <;>
        by_cases hu : pyTruthy m.unread = true <;>
        by_cases hf : (pyTruthy m.favorite &&
            (m.folder == some "inbox" || m.folder == some "archive")) = true <;>
        simp [FetchAllMentionsAPI.params, FetchAllMentionsAPI.rawParams, hsi, hu, hf,
          hpy, hngt, hnlt, hne]
  · intro c s L hs hL hne
    have hpy : pyIntD s = L := by simp [pyIntD, hL]
    have htr : pyTruthy c.limit = true := by simp [hs, hne]
    refine ⟨fun hgt => ?_, fun hlt => ⟨?_, ?_⟩, fun h1 h2 => ?_⟩
    · simp [FetchMentionChildrenAPI.params, htr, hpy, hgt, hs, hne]
    · have hngt : ¬ (1000 : Int) < L := by omega
      simp [FetchMentionChildrenAPI.params, htr, hpy, hngt, hlt, hs, hne]
    · have hngt : ¬ (1000 : Int) < L := by omega
      simp [FetchMentionChildrenAPI.params, queryPairs, keysOf, pathKeys, htr, hpy, hngt,
        hlt, hs]
    · have hngt : ¬ (1000 : Int) < L := by omega
      have hnlt : ¬ L < 1 := by omega
      simp [FetchMentionChildrenAPI.params, htr, hpy, hngt, hnlt, hs, hne]

/-- C1 witness: the clamp at 5000 on the mention-list build and the
empty-string remnant at 0 on the mention-children build. -/
theorem limit_clamp_witness :
    ("limit", some "1000") ∈ FetchAllMentionsAPI.params
      { access_token := "T", account_id := "A", alert_id := "B", since_id := none,
        limit := "5000", before_date := none, not_before_date := none, source := none,
        unread := none, favorite := some "true", folder := some "inbox", tone := none,
        countries := none, include_children := none, sort := none, languages := none,
        timezone := none, q := none, cursor := none } ∧
    ("limit", some "") ∈ FetchMentionChildrenAPI.params
      { access_token := "t", account_id := "a", alert_id := "b", mention_id := "m",
        limit := some "0", before_date := none } :=
  ⟨(limit_clamp.1 _ 5000 (by decide) (by decide)).1 (by decide),
   ((limit_clamp.2 _ "0" 0 rfl (by decide) (by decide)).2.1 (by decide)).1⟩

/-- C7: a before/not-before date that does not parse as `yyyy-MM-dd HH:mm`,
or a tone outside {negative, neutral, positive}, makes the build fail with
`ValidationError` at construction time (no state is produced, so no request
can be issued); a date that does parse is stored reformatted as the
timezone-aware ISO-8601 rendering, which carries seconds, a fractional
component and an offset. -/
theorem build_validation (a : FetchAllMentionsArgs) (s t : String) (p : DateParts) :
    (a.before_date = some s → parseDate s = none →
      mkFetchAllMentions a = .error (.malformedDate s)) ∧
    (a.not_before_date = some s → parseDate s = none →
      ∀ m, mkFetchAllMentions a ≠ .ok m) ∧
    (a.tone = some t → t ≠ "negative" → t ≠ "neutral" → t ≠ "positive" →
      ∀ m, mkFetchAllMentions a ≠ .ok m) ∧
    (a.before_date = some s → parseDate s = some p →
      ∀ m, mkFetchAllMentions a = .ok m → m.before_date = some (renderIso p)) ∧
    (a.tone = some t → (t = "negative" ∨ t = "neutral" ∨ t = "positive") →
      ∀ m, mkFetchAllMentions a = .ok m → m.tone = some t) ∧
    (":00.000000+00:00").data <:+ (renderIso p).data := by
  refine ⟨fun hb hp => ?_, fun hnb hp m hmk => ?_, fun ht h1 h2 h3 m hmk => ?_,
    fun hb hp m hmk => ?_, fun ht hv m hmk => ?_, ?_⟩
  · unfold mkFetchAllMentions
    simp [hb, transformOptDate, transform_date, Except.map, hp]
  · have hcomp := (mkFetchAllMentions_ok a m hmk).2.2.2.2.2.2.1
    rw [hnb] at hcomp
    simp [transformOptDate, transform_date, Except.map, hp] at hcomp
  · have hcomp := (mkFetchAllMentions_ok a m hmk).2.2.2.2.2.2.2.2.2.2.2.1
    rw [ht] at hcomp
    simp [transformOptTone, transform_tone, Except.map, h1, h2, h3] at hcomp
  · have hcomp := (mkFetchAllMentions_ok a m hmk).2.2.2.2.2.1
    rw [hb] at hcomp
    simp [transformOptDate, transform_date, Except.map, hp] at hcomp
    exact hcomp.symm
  · have hcomp := (mkFetchAllMentions_ok a m hmk).2.2.2.2.2.2.2.2.2.2.2.1
    rw [ht] at hcomp
    simp [transformOptTone, transform_tone, Except.map, hv] at hcomp
    exact hcomp.symm
  · simp only [renderIso, String.data_append]
    exact List.suffix_append _ _

/-- C7 witness: a malformed date aborts a concrete build with
`ValidationError`, and the spec's round-trip date is stored in ISO form on a
concrete successful build. -/
theorem build_validation_witness :
    mkFetchAllMentions
      { access_token := "t", account_id := "a", alert_id := "b",
        before_date := some "2018-13-99 99:99" } =
      .error (.malformedDate "2018-13-99 99:99") ∧
    FetchAllMentionsAPI.before_date
      { access_token := "t", account_id := "a", alert_id := "b", since_id := none,
        limit := "20", before_date := some "2018-11-25T12:00:00.000000+00:00",
        not_before_date := none, source := none, unread := none, favorite := none,
        folder := none, tone := none, countries := none, include_children := none,
        sort := none, languages := none, timezone := none, q := none, cursor := none } =
      some (renderIso ⟨2018, 11, 25, 12, 0⟩) :=
  ⟨(build_validation
      { access_token := "t", account_id := "a", alert_id := "b",
        before_date := some "2018-13-99 99:99" }
      "2018-13-99 99:99" "x" ⟨2018, 11, 25, 12, 0⟩).1 rfl (by decide),
   (build_validation
      { access_token := "t", account_id := "a", alert_id := "b",
        before_date := some "2018-11-25 12:00" }
      "2018-11-25 12:00" "x" ⟨2018, 11, 25, 12, 0⟩).2.2.2.1 rfl (by decide)
      { access_token := "t", account_id := "a", alert_id := "b", since_id := none,
        limit := "20", before_date := some "2018-11-25T12:00:00.000000+00:00",
        not_before_date := none, source := none, unread := none, favorite := none,
        folder := none, tone := none, countries := none, include_children := none,
        sort := none, languages := none, timezone := none, q := none, cursor := none }
      (by rfl)⟩

/-- C5 counterexample: a mention-children build with `before_date` absent
keeps a `before_date` key (with empty-string value) in its parameter set,
where the claim requires absent fields never to appear as keys. -/
theorem children_none_before_date_key_present :
    (mkFetchMentionChildren "t" "a" "b" "m" none none).toOption.map
        (fun c => decide ("before_date" ∈ keysOf c.params)) = some true := by
  decide

set_option maxHeartbeats 1600000 in
/-- C5 (amended): an absent (None) optional field never appears as a key in
the mention-list parameter set when `before_date` is also absent, nor in the
alert-create JSON body; the mention-children parameter set instead retains
absent fields as empty-string entries (omitted from the rendered query);
and when `before_date` is present while `not_before_date` is absent, the
mention-list parameter set and query do carry a `not_before_date` key whose
value is Python None. -/
theorem absent_field_elision :
    (∀ (a : FetchAllMentionsArgs) (m : FetchAllMentionsAPI),
      mkFetchAllMentions a = .ok m → a.before_date = none →
      (a.since_id = none → "since_id" ∉ keysOf m.params) ∧
      ("before_date" ∉ keysOf m.params ∧ "not_before_date" ∉ keysOf m.params) ∧
      (a.cursor = none → "cursor" ∉ keysOf m.params) ∧
      (a.unread = none → "unread" ∉ keysOf m.params) ∧
      (a.favorite = none → "favorite" ∉ keysOf m.params) ∧
      (a.folder = none → "folder" ∉ keysOf m.params) ∧
      (a.q = none → "q" ∉ keysOf m.params) ∧
      (a.tone = none → "tone" ∉ keysOf m.params) ∧
      (a.source = none → "source" ∉ keysOf m.params) ∧
      (a.countries = none → "countries" ∉ keysOf m.params) ∧
      (a.include_children = none → "include_children" ∉ keysOf m.params) ∧
      (a.sort = none → "sort" ∉ keysOf m.params) ∧
      (a.languages = none → "languages" ∉ keysOf m.params) ∧
      (a.timezone = none → "timezone" ∉ keysOf m.params)) ∧
    (∀ c : CreateAnAlertAPI,
      (c.countries = none → "countries" ∉ keysOf c.data) ∧
      (c.sources = none → "sources" ∉ keysOf c.data) ∧
      (c.blocked_sites = none → "blocked_sites" ∉ keysOf c.data) ∧
      (c.noise_detection = none → "noise_detection" ∉ keysOf c.data) ∧
      (c.reviews_pages = none → "reviews_pages" ∉ keysOf c.data)) ∧
    (∀ ch : FetchMentionChildrenAPI,
      (ch.before_date = none →
        ("before_date", some "") ∈ ch.params ∧
        "before_date" ∉ keysOf (queryPairs ch.params)) ∧
      (ch.limit = none → "limit" ∉ keysOf ch.params)) ∧
    (∀ (m : FetchAllMentionsAPI) (bs : String),
      m.since_id = none → m.before_date = some bs → bs ≠ "" → m.not_before_date = none →
      ("not_before_date", none) ∈ m.params ∧
      ("not_before_date", none) ∈ queryPairs m.params) := by
  refine ⟨?_, ?_, ?_, ?_⟩
  · intro a m h hb
    obtain ⟨-, -, -, hw4, -, hw6, hw7, hw8, hw9, hw10, hw11, hw12, hw13, hw14, hw15,
      hw16, hw17, hw18, hw19⟩ := mkFetchAllMentions_ok a m h
    have hmbd : m.before_date = none := by
      rw [hb] at hw6
      simpa [transformOptDate] using hw6.symm
    refine ⟨fun hx => ?_, ⟨?_, ?_⟩, fun hx => ?_, fun hx => ?_, fun hx => ?_, fun hx => ?_,
      fun hx => ?_, fun hx => ?_, fun hx => ?_, fun hx => ?_, fun hx => ?_, fun hx => ?_,
      fun hx => ?_, fun hx => ?_⟩
    · have hmsi : m.since_id = none := by rw [hw4, hx]
      by_cases hu : pyTruthy m.unread = true <;>
        by_cases hf : (pyTruthy m.favorite &&
            (m.folder == some "inbox" || m.folder == some "archive")) = true <;>
        simp [FetchAllMentionsAPI.params, FetchAllMentionsAPI.rawParams, keysOf, hmsi, hu, hf]
    · by_cases hsi : pyTruthy m.since_id = true <;>
        by_cases hu : pyTruthy m.unread = true <;>
        by_cases hf : (pyTruthy m.favorite &&
            (m.folder == some "inbox" || m.folder == some "archive")) = true <;>
        simp [FetchAllMentionsAPI.params, FetchAllMentionsAPI.rawParams, keysOf, hmbd,
          hsi, hu, hf]
    · by_cases hsi : pyTruthy m.since_id = true <;>
        by_cases hu : pyTruthy m.unread = true <;>
        by_cases hf : (pyTruthy m.favorite &&
            (m.folder == some "inbox" || m.folder == some "archive")) = true <;>
        simp [FetchAllMentionsAPI.params, FetchAllMentionsAPI.rawParams, keysOf, hmbd,
          hsi, hu, hf]
    · have hmc : m.cursor = none := by rw [hw19, hx]
      by_cases hsi : pyTruthy m.since_id = true <;>
        by_cases hu : pyTruthy m.unread = true <;>
        by_cases hf : (pyTruthy m.favorite &&
            (m.folder == some "inbox" || m.folder == some "archive")) = true <;>
        simp [FetchAllMentionsAPI.params, FetchAllMentionsAPI.rawParams, keysOf, hmc,
          hsi, hu, hf]
    · have hmun : m.unread = none := by rw [hw9, hx]; rfl
      by_cases hsi : pyTruthy m.since_id = true <;>
        by_cases hf : (pyTruthy m.favorite &&
            (m.folder == some "inbox" || m.folder == some "archive")) = true <;>
        simp [FetchAllMentionsAPI.params, FetchAllMentionsAPI.rawParams, keysOf, hmun,
          hsi, hf]
    · have hmf : m.favorite = none := by rw [hw10, hx]; rfl
      by_cases hsi : pyTruthy m.since_id = true <;>
        by_cases hu : pyTruthy m.unread = true <;>
        simp [FetchAllMentionsAPI.params, FetchAllMentionsAPI.rawParams, keysOf, hmf,
          hsi, hu]
    · have hmfo : m.folder = none := by rw [hw11, hx]
      by_cases hsi : pyTruthy m.since_id = true <;>
        by_cases hu : pyTruthy m.unread = true <;>
        simp [FetchAllMentionsAPI.params, FetchAllMentionsAPI.rawParams, keysOf, hmfo,
          hsi, hu]
    · have hmq : m.q = none := by rw [hw18, hx]
      by_cases hsi : pyTruthy m.since_id = true <;>
        by_cases hu : pyTruthy m.unread = true <;>
        by_cases hf : (pyTruthy m.favorite &&
            (m.folder == some "inbox" || m.folder == some "archive")) = true <;>
        simp [FetchAllMentionsAPI.params, FetchAllMentionsAPI.rawParams, keysOf, hmq,
          hsi, hu, hf]
    · have hmt : m.tone = none := by
        rw [hx] at hw12
        simpa [transformOptTone] using hw12.symm
      by_cases hsi : pyTruthy m.since_id = true <;>
        by_cases hu : pyTruthy m.unread = true <;>
        by_cases hf : (pyTruthy m.favorite &&
            (m.folder == some "inbox" || m.folder == some "archive")) = true <;>
        simp [FetchAllMentionsAPI.params, FetchAllMentionsAPI.rawParams, keysOf, hmt,
          hsi, hu, hf]
    · have hms : m.source = none := by rw [hw8, hx]
      by_cases hsi : pyTruthy m.since_id = true <;>
        by_cases hu : pyTruthy m.unread = true <;>
        by_cases hf : (pyTruthy m.favorite &&
            (m.folder == some "inbox" || m.folder == some "archive")) = true <;>
        simp [FetchAllMentionsAPI.params, FetchAllMentionsAPI.rawParams, keysOf, hms,
          hsi, hu, hf]
    · have hmc : m.countries = none := by rw [hw13, hx]
      by_cases hsi : pyTruthy m.since_id = true <;>
        by_cases hu : pyTruthy m.unread = true <;>
        by_cases hf : (pyTruthy m.favorite &&
            (m.folder == some "inbox" || m.folder == some "archive")) = true <;>
        simp [FetchAllMentionsAPI.params, FetchAllMentionsAPI.rawParams, keysOf, hmc,
          hsi, hu, hf]
    · have hmi : m.include_children = none := by rw [hw14, hx]; rfl
      by_cases hsi : pyTruthy m.since_id = true <;>
        by_cases hu : pyTruthy m.unread = true <;>
        by_cases hf : (pyTruthy m.favorite &&
            (m.folder == some "inbox" || m.folder == some "archive")) = true <;>
        simp [FetchAllMentionsAPI.params, FetchAllMentionsAPI.rawParams, keysOf, hmi,
          hsi, hu, hf]
    · have hmsrt : m.sort = none := by rw [hw15, hx]
      by_cases hsi : pyTruthy m.since_id = true <;>
        by_cases hu : pyTruthy m.unread = true <;>
        by_cases hf : (pyTruthy m.favorite &&
            (m.folder == some "inbox" || m.folder == some "archive")) = true <;>
        simp [FetchAllMentionsAPI.params, FetchAllMentionsAPI.rawParams, keysOf, hmsrt,
          hsi, hu, hf]
    · have hml : m.languages = none := by rw [hw16, hx]
      by_cases hsi : pyTruthy m.since_id = true <;>
        by_cases hu : pyTruthy m.unread = true <;>
        by_cases hf : (pyTruthy m.favorite &&
            (m.folder == some "inbox" || m.folder == some "archive")) = true <;>
        simp [FetchAllMentionsAPI.params, FetchAllMentionsAPI.rawParams, keysOf, hml,
          hsi, hu, hf]
    · have hmtz : m.timezone = none := by rw [hw17, hx]
      by_cases hsi : pyTruthy m.since_id = true <;>
        by_cases hu : pyTruthy m.unread = true <;>
        by_cases hf : (pyTruthy m.favorite &&
            (m.folder == some "inbox" || m.folder == some "archive")) = true <;>
        simp [FetchAllMentionsAPI.params, FetchAllMentionsAPI.rawParams, keysOf, hmtz,
          hsi, hu, hf]
  · intro c
    refine ⟨fun hx => ?_, fun hx => ?_, fun hx => ?_, fun hx => ?_, fun hx => ?_⟩ <;>
      simp [CreateAnAlertAPI.data, keysOf, listVal, hx]
  · intro ch
    refine ⟨fun hx => ⟨?_, ?_⟩, fun hx => ?_⟩
    · by_cases hl : pyTruthy ch.limit = true <;>
        simp [FetchMentionChildrenAPI.params, hx, hl]
    · by_cases hl : pyTruthy ch.limit = true <;>
        simp [FetchMentionChildrenAPI.params, queryPairs, keysOf, pathKeys, hx, hl]
    · simp [FetchMentionChildrenAPI.params, keysOf, hx]
  · intro m bs hsi hbd hbne hnbd
    have hsif : pyTruthy m.since_id = false := by simp [hsi]
    have hbdt : pyTruthy m.before_date = true := by simp [hbd, hbne]
    have hmem : ("not_before_date", none) ∈ m.params := by
      by_cases hu : pyTruthy m.unread = true <;>
        by_cases hf : (pyTruthy m.favorite &&
            (m.folder == some "inbox" || m.folder == some "archive")) = true <;>
        simp [FetchAllMentionsAPI.params, FetchAllMentionsAPI.rawParams, hsif, hbdt, hnbd,
          hu, hf]
    exact ⟨hmem, List.mem_filter.mpr ⟨hmem, by simp [queryPairs, pathKeys]⟩⟩

/-- C5 witness: the children-build remnant entry and a default-build folder
elision, by applying the elision theorem at concrete builds. -/
theorem absent_field_elision_witness :
    ("before_date", some "") ∈ FetchMentionChildrenAPI.params
      { access_token := "t", account_id := "a", alert_id := "b", mention_id := "m",
        limit := none, before_date := none } ∧
    "folder" ∉ keysOf (FetchAllMentionsAPI.params defaultMentionState) :=
  ⟨((absent_field_elision.2.2.1
      { access_token := "t", account_id := "a", alert_id := "b", mention_id := "m",
        limit := none, before_date := none }).1 rfl).1,
   (absent_field_elision.1 defaultMentionArgs defaultMentionState (by rfl)
      rfl).2.2.2.2.2.1 rfl⟩
